import Mathlib

/-!
Verification of the THub V2 n8n workflow testing harness
(`src/n8n/test-workflows.py`).

The script declares five webhook test scenarios, runs them strictly
sequentially, collects one `(name, success)` pair per scenario, prints a
summary and exits with status 0 iff every scenario succeeded.  Each test
function performs exactly one `requests.post`; its whole body is wrapped in
`try ... except Exception`, so a transport failure or any exception raised
while handling the response (e.g. `response.json()` on a non-JSON body, or a
`KeyError` while reading `mockScan` subfields) is caught and turned into a
`(False, {"error": str(e)})` result.

We shallow-embed the script: JSON values are an inductive `Json`; the single
network interaction of a test function is a `Transport` value (either a
received HTTP response, or a raised transport exception); each Python test
function becomes a total Lean function `Transport → Bool × Json`, mirroring
the source's control flow including the `try/except` (any raise inside the
`try` maps to the `except` branch).  Python-level dictionary/list operations
that can raise (`d[k]`, `k in d`, `len`) are embedded as `Except`-valued
helpers whose error branch models the raised exception.
-/

namespace THub

/-- A JSON value, as produced by `response.json()`. -/
inductive Json where
  | null
  | bool (b : Bool)
  | num (n : Int)
  | str (s : String)
  | arr (elems : List Json)
  | obj (fields : List (String × Json))

/-- Substring test, modelling Python `pat in s` for strings. -/
def strContains (s pat : String) : Bool := (s.splitOn pat).length > 1

/-- First value bound to `key` in an association list of JSON object fields
(Python dictionaries have unique keys, so first = only). -/
def findKey : List (String × Json) → String → Option Json
  | [], _ => none
  | (k, v) :: rest, key => if k == key then some v else findKey rest key

/-- Python `key in j`: key membership for dicts, element membership for
lists, substring test for strings; raises `TypeError` on other values. -/
def pyContains (j : Json) (key : String) : Except String Bool :=
  match j with
  | .obj fs => .ok (findKey fs key).isSome
  | .arr xs => .ok (xs.any fun e => match e with | .str s => s == key | _ => false)
  | .str s => .ok (strContains s key)
  | _ => .error "TypeError: argument is not iterable"

/-- Python `j[key]` for a string key: dict lookup raising `KeyError` when the
key is absent, `TypeError` when `j` is not a dict. -/
def pyGetItem (j : Json) (key : String) : Except String Json :=
  match j with
  | .obj fs =>
    match findKey fs key with
    | some v => .ok v
    | none => .error ("KeyError: " ++ key)
  | _ => .error "TypeError: value is not subscriptable by a string"

/-- Python `len(j)`: defined for lists, dicts and strings, raises `TypeError`
otherwise. -/
def pyLen (j : Json) : Except String Nat :=
  match j with
  | .arr xs => .ok xs.length
  | .obj fs => .ok fs.length
  | .str s => .ok s.length
  | _ => .error "TypeError: value has no length"

/-- A received HTTP response: its status code, its body parsed as JSON when
the body text is valid JSON (`response.json()` raises otherwise), and the raw
body text (`response.text`). -/
structure HttpResponse where
  status_code : Nat
  jsonBody : Option Json
  text : String

/-- The network behaviour observed by one `requests.post` call: either a
response was received, or a transport-level exception (timeout, DNS failure,
connection refused, ...) was raised with a human-readable message. -/
inductive Transport where
  | response (r : HttpResponse)
  | error (msg : String)

/-- Message of the `json.JSONDecodeError` raised by `response.json()` on a
non-JSON body. -/
def jsonDecodeErrorMsg : String := "Expecting value: line 1 column 1 (char 0)"

/-- The `\x7b"error": str(e)\x7d` detail returned by every `except` branch. -/
def errDetail (msg : String) : Json := .obj [("error", .str msg)]

/-- The `\x7b"error": response.text, "status": response.status_code\x7d`
detail returned by the positive tests on a non-200 status. -/
def failDetail (r : HttpResponse) : Json :=
  .obj [("error", .str r.text), ("status", .num (r.status_code : Int))]

/-- The status-code / transport-error view of the single `requests.post`
attempt of a scenario: on a received response the status code is present and
there is no transport error, on a transport failure there is no status code
and the exception message is the transport error. -/
def invokeOutcome (t : Transport) : Option Nat × Option String :=
  match t with
  | .response r => (some r.status_code, none)
  | .error m => (none, some m)

/-- Embedding of `test_simple_webhook` (lines 24-52): 200 with a JSON body
passes returning the parsed body; non-200 fails with the raw text and status;
any exception (transport failure, or `response.json()` on a 200 non-JSON
body) is caught and fails with the exception message. -/
def test_simple_webhook (t : Transport) : Bool × Json :=
  match t with
  | .error e => (false, errDetail e)
  | .response r =>
    if r.status_code == 200 then
      match r.jsonBody with
      | some j => (true, j)
      | none => (false, errDetail jsonDecodeErrorMsg)
    else
      (false, failDetail r)

/-- Embedding of `test_deploy_ready_webhook` (lines 54-83), identical in
control flow to `test_simple_webhook` (only endpoint, payload and timeout
differ). -/
def test_deploy_ready_webhook (t : Transport) : Bool × Json :=
  match t with
  | .error e => (false, errDetail e)
  | .response r =>
    if r.status_code == 200 then
      match r.jsonBody with
      | some j => (true, j)
      | none => (false, errDetail jsonDecodeErrorMsg)
    else
      (false, failDetail r)

/-- Embedding of `test_batch_analysis` (lines 85-120), identical in control
flow to `test_simple_webhook`. -/
def test_batch_analysis (t : Transport) : Bool × Json :=
  match t with
  | .error e => (false, errDetail e)
  | .response r =>
    if r.status_code == 200 then
      match r.jsonBody with
      | some j => (true, j)
      | none => (false, errDetail jsonDecodeErrorMsg)
    else
      (false, failDetail r)

/-- The `mockScan` inspection block of `test_market_scan_action`
(lines 151-157): `if "mockScan" in data:` followed by reads of
`data['mockScan']['totalScanned']`, `['filtered']`, `['queued']` and
`len(data['mockScan']['candidates'])`, each of which can raise; an `.error`
result models the raised exception reaching the `except` branch. -/
def marketScanInspect (data : Json) : Except String Unit :=
  match pyContains data "mockScan" with
  | .error e => .error e
  | .ok false => .ok ()
  | .ok true =>
    match pyGetItem data "mockScan" with
    | .error e => .error e
    | .ok ms =>
      match pyGetItem ms "totalScanned" with
      | .error e => .error e
      | .ok _ =>
        match pyGetItem ms "filtered" with
        | .error e => .error e
        | .ok _ =>
          match pyGetItem ms "queued" with
          | .error e => .error e
          | .ok _ =>
            match pyGetItem ms "candidates" with
            | .error e => .error e
            | .ok cand =>
              match pyLen cand with
              | .error e => .error e
              | .ok _ => .ok ()

/-- Embedding of `test_market_scan_action` (lines 122-166): like the simple
webhook test, but on a 200 JSON response it additionally runs the `mockScan`
inspection, whose exceptions are caught by the same `except` branch. -/
def test_market_scan_action (t : Transport) : Bool × Json :=
  match t with
  | .error e => (false, errDetail e)
  | .response r =>
    if r.status_code == 200 then
      match r.jsonBody with
      | some data =>
        match marketScanInspect data with
        | .ok _ => (true, data)
        | .error e => (false, errDetail e)
      | none => (false, errDetail jsonDecodeErrorMsg)
    else
      (false, failDetail r)

/-- Embedding of `test_invalid_payload` (lines 168-196), the deliberately
negative scenario: a non-200 status is the expected rejection and passes with
detail `\x7b"handled_correctly": True\x7d`; a 200 status fails, returning the
parsed body (or, if `response.json()` raises, the caught exception message);
a transport exception is caught by the `except` branch and fails. -/
def test_invalid_payload (t : Transport) : Bool × Json :=
  match t with
  | .error e => (false, errDetail e)
  | .response r =>
    if r.status_code != 200 then
      (true, .obj [("handled_correctly", .bool true)])
    else
      match r.jsonBody with
      | some j => (false, j)
      | none => (false, errDetail jsonDecodeErrorMsg)

/-- The declared scenario list of `main` (lines 225-231), in declaration
order. -/
def tests : List (String × (Transport → Bool × Json)) :=
  [("Simple Webhook", test_simple_webhook),
   ("Deploy-Ready Webhook", test_deploy_ready_webhook),
   ("Batch Analysis", test_batch_analysis),
   ("Market Scan Action", test_market_scan_action),
   ("Error Handling", test_invalid_payload)]

/-- The network behaviour of one run: what each of the five sequential
`requests.post` calls observes. -/
structure World where
  simpleT : Transport
  deployT : Transport
  batchT : Transport
  scanT : Transport
  invalidT : Transport

/-- The unrolled scenario loop of `main` (lines 233-236): each test function
is called once, in declaration order, yielding its `(success, data)` pair. -/
def suiteRuns (w : World) : List (String × (Bool × Json)) :=
  [("Simple Webhook", test_simple_webhook w.simpleT),
   ("Deploy-Ready Webhook", test_deploy_ready_webhook w.deployT),
   ("Batch Analysis", test_batch_analysis w.batchT),
   ("Market Scan Action", test_market_scan_action w.scanT),
   ("Error Handling", test_invalid_payload w.invalidT)]

/-- `results.append((test_name, success))`: the ordered result list, keeping
only the name and the success flag (the `data` component is dropped). -/
def results (w : World) : List (String × Bool) :=
  (suiteRuns w).map fun p => (p.1, p.2.1)

/-- `successful = sum(1 for _, success in results if success)` (line 246). -/
def successful (rs : List (String × Bool)) : Nat :=
  (rs.filter fun p => p.2).length

/-- `failed = sum(1 for _, success in results if not success)` (line 247). -/
def failed (rs : List (String × Bool)) : Nat :=
  (rs.filter fun p => !p.2).length

/-- `return successful == len(results)` (line 266). -/
def mainSuccess (w : World) : Bool :=
  successful (results w) == (results w).length

/-- `sys.exit(0 if success else 1)` (line 271). -/
def exitCode (w : World) : Nat :=
  if mainSuccess w then 0 else 1

/-- Trace-based runner: the network is a function from the index of the HTTP
request to its behaviour; the suite loop issues the requests sequentially,
each test function issuing exactly one (the source has a single
`requests.post` per test function and no retry loop).  Returns the result
list together with the total number of HTTP requests issued. -/
def runTrace (net : Nat → Transport) :
    List (String × (Transport → Bool × Json)) → Nat → List (String × Bool) × Nat
  | [], k => ([], k)
  | (name, f) :: rest, k =>
    let res := (f (net k)).1
    let tail := runTrace net rest (k + 1)
    ((name, res) :: tail.1, tail.2)

/-- Run the whole declared suite against a network trace. -/
def runSuiteTrace (net : Nat → Transport) : List (String × Bool) × Nat :=
  runTrace net tests 0

/-- Request payload of `test_simple_webhook` (lines 30-33): the static fields
plus `"timestamp": datetime.utcnow().isoformat() + "Z"`; the current-time
string `ts` is the isolated effectful input. -/
def simpleWebhookPayload (ts : String) : Json :=
  .obj [("test", .str "simple"),
        ("timestamp", .str (ts ++ "Z"))]

/-- Request payload of `test_deploy_ready_webhook` (lines 60-64). -/
def deployReadyPayload (ts : String) : Json :=
  .obj [("action", .str "test"),
        ("source", .str "python-test-script"),
        ("timestamp", .str (ts ++ "Z"))]

/-- Request payload of `test_batch_analysis` (lines 91-99): the timestamp
lives inside the nested `metadata` mapping, not at top level. -/
def batchAnalysisPayload (ts : String) : Json :=
  .obj [("symbols", .arr [.str "AAPL", .str "MSFT", .str "GOOGL", .str "TSLA",
                          .str "AMZN", .str "META", .str "NVDA"]),
        ("priority", .str "normal"),
        ("metadata", .obj [("source", .str "python-test-script"),
                           ("test", .bool true),
                           ("timestamp", .str (ts ++ "Z"))])]

/-- Request payload of `test_market_scan_action` (lines 128-137). -/
def marketScanPayload (ts : String) : Json :=
  .obj [("action", .str "market_scan"),
        ("filters", .obj [("limit", .num 10),
                          ("minVolume", .num 1000000),
                          ("minPrice", .num 5),
                          ("maxPrice", .num 500)]),
        ("timestamp", .str (ts ++ "Z"))]

/-- Request payload of `test_invalid_payload` (lines 174-177): fully static,
with an empty `symbols` list and no timestamp field at all. -/
def invalidPayload : Json :=
  .obj [("symbols", .arr []),
        ("priority", .str "normal")]

/-- Top-level field lookup on a JSON payload (none when not an object). -/
def payloadField (p : Json) (key : String) : Option Json :=
  match p with
  | .obj fs => findKey fs key
  | _ => none

/-- Per-scenario `requests.post` timeouts in seconds (lines 39, 70, 107, 143,
183). -/
def scenarioTimeouts : List Nat := [10, 15, 20, 10, 10]

/-- Whether `len` is defined on a value (lists, dicts and strings). -/
def hasLen (j : Json) : Bool :=
  match j with
  | .arr _ => true
  | .obj _ => true
  | .str _ => true
  | _ => false

/-- A 200 response body for the market-scan scenario on which the `mockScan`
inspection completes without raising: either the membership test
`"mockScan" in data` is defined and yields false, or `data` is a dict whose
`mockScan` entry is itself a dict carrying `totalScanned`, `filtered` and
`queued` entries and a `candidates` entry that supports `len`. -/
def mockScanWellFormed (data : Json) : Bool :=
  match data with
  | .obj fs =>
    match findKey fs "mockScan" with
    | none => true
    | some (.obj ms) =>
      (findKey ms "totalScanned").isSome &&
      (findKey ms "filtered").isSome &&
      (findKey ms "queued").isSome &&
      (match findKey ms "candidates" with
       | some c => hasLen c
       | none => false)
    | some _ => false
  | .arr xs => !(xs.any fun e => match e with | .str s => s == "mockScan" | _ => false)
  | .str s => !(strContains s "mockScan")
  | _ => false

/-! ## General lemmas about the suite aggregation -/

theorem successful_add_failed (rs : List (String × Bool)) :
    successful rs + failed rs = rs.length := by
  induction rs with
  | nil => rfl
  | cons p rest ih =>
    cases hb : p.2 <;>
      simp [successful, failed, List.filter, hb] at ih ⊢ <;> omega

theorem successful_eq_length_iff (rs : List (String × Bool)) :
    (successful rs == rs.length) = true ↔ failed rs = 0 := by
  have h := successful_add_failed rs
  have hle : successful rs ≤ rs.length := by
    simpa [successful] using List.length_filter_le (fun p => p.2) rs
  constructor
  · intro he
    have : successful rs = rs.length := by simpa using he
    omega
  · intro hf
    have : successful rs = rs.length := by omega
    simpa using this

theorem failed_eq_zero_iff (rs : List (String × Bool)) :
    failed rs = 0 ↔ ∀ p ∈ rs, p.2 = true := by
  constructor
  · intro h p hp
    have hnil : rs.filter (fun p => !p.2) = [] :=
      List.length_eq_zero.mp h
    have := List.filter_eq_nil_iff.mp hnil p hp
    simpa using this
  · intro h
    have hnil : rs.filter (fun p => !p.2) = [] := by
      apply List.filter_eq_nil_iff.mpr
      intro p hp
      simp [h p hp]
    simp [failed, hnil]

/-! ## Claim theorems -/

/-- Claim C4 (confirmed): for every run,
`successful + failed = total = len(tests) = 5`, the exit status is
`0` when `failed = 0` and `1` otherwise, and the exit status is `0` exactly
when every scenario result is passed. -/
theorem suite_aggregate_correct (w : World) :
    successful (results w) + failed (results w) = (results w).length ∧
    (results w).length = tests.length ∧
    tests.length = 5 ∧
    exitCode w = (if failed (results w) = 0 then 0 else 1) ∧
    (exitCode w = 0 ↔ ∀ p ∈ results w, p.2 = true) := by
  have hsum := successful_add_failed (results w)
  have hiff := successful_eq_length_iff (results w)
  have hlen : (results w).length = 5 := by
    simp [results, suiteRuns]
  refine ⟨hsum, by simp [hlen, tests], by simp [tests], ?_, ?_⟩
  · by_cases hf : failed (results w) = 0
    · simp [exitCode, mainSuccess, hiff.mpr hf, hf]
    · have : (successful (results w) == (results w).length) = false := by
        cases h : (successful (results w) == (results w).length) with
        | false => rfl
        | true => exact absurd (hiff.mp h) hf
      simp [exitCode, mainSuccess, this, hf]
  · rw [← failed_eq_zero_iff]
    by_cases hf : failed (results w) = 0
    · simp [exitCode, mainSuccess, hiff.mpr hf, hf]
    · have : (successful (results w) == (results w).length) = false := by
        cases h : (successful (results w) == (results w).length) with
        | false => rfl
        | true => exact absurd (hiff.mp h) hf
      simp [exitCode, mainSuccess, this, hf]

/-- Claim C5 (confirmed): for every network behaviour — responses of any
status, transport errors, malformed bodies — the run produces exactly one
result per declared scenario, and the result names appear in declaration
order. -/
theorem one_result_per_scenario_in_order (w : World) :
    (results w).length = tests.length ∧
    (results w).map Prod.fst = tests.map Prod.fst := by
  constructor
  · simp [results, suiteRuns, tests]
  · simp [results, suiteRuns, tests]

/-- The mocked world of the end-to-end example: HTTP 200 with body `\x7b\x7d`
for the first four scenarios and HTTP 422 for the fifth. -/
def exampleWorld : World :=
  { simpleT := .response ⟨200, some (.obj []), "\x7b\x7d"⟩,
    deployT := .response ⟨200, some (.obj []), "\x7b\x7d"⟩,
    batchT := .response ⟨200, some (.obj []), "\x7b\x7d"⟩,
    scanT := .response ⟨200, some (.obj []), "\x7b\x7d"⟩,
    invalidT := .response ⟨422, none, "Unprocessable Entity"⟩ }

/-- Claim C8 (confirmed): with 200/`\x7b\x7d` for the first four scenarios
and 422 for the fifth, all five scenarios pass, the exit status is 0, and the
tally is 5 total, 5 successful, 0 failed. -/
theorem example_run_all_pass :
    results exampleWorld =
      [("Simple Webhook", true), ("Deploy-Ready Webhook", true),
       ("Batch Analysis", true), ("Market Scan Action", true),
       ("Error Handling", true)] ∧
    (results exampleWorld).length = 5 ∧
    successful (results exampleWorld) = 5 ∧
    failed (results exampleWorld) = 0 ∧
    exitCode exampleWorld = 0 :=
  ⟨rfl, rfl, rfl, rfl, rfl⟩

/-- Claim C9 (confirmed): whenever the negative scenario passes, its detail
mapping is exactly `\x7b"handled_correctly": True\x7d` — the rejecting
response's status code and body do not appear in the result. -/
theorem negative_pass_detail (t : Transport)
    (h : (test_invalid_payload t).1 = true) :
    (test_invalid_payload t).2 = Json.obj [("handled_correctly", Json.bool true)] := by
  cases t with
  | error e => simp [test_invalid_payload, errDetail] at h
  | response r =>
    by_cases h200 : r.status_code = 200
    · rcases hb : r.jsonBody with _ | j <;>
        simp [test_invalid_payload, h200, hb, errDetail] at h
    · simp [test_invalid_payload, h200]

/-- Witness for C9: a concrete 400 rejection passes and carries exactly the
`handled_correctly` detail. -/
theorem negative_pass_detail_witness :
    (test_invalid_payload (.response ⟨400, none, "Bad Request"⟩)).1 = true ∧
    (test_invalid_payload (.response ⟨400, none, "Bad Request"⟩)).2 =
      Json.obj [("handled_correctly", Json.bool true)] :=
  ⟨rfl, negative_pass_detail (.response ⟨400, none, "Bad Request"⟩) rfl⟩

/-- Claim C10 (confirmed): two runs whose scenarios produce the same sequence
of success booleans have identical summary counts, suite verdict and exit
status — per-scenario detail mappings never influence them. -/
theorem verdict_depends_only_on_booleans (w1 w2 : World)
    (h : (suiteRuns w1).map (fun p => p.2.1) = (suiteRuns w2).map (fun p => p.2.1)) :
    successful (results w1) = successful (results w2) ∧
    failed (results w1) = failed (results w2) ∧
    mainSuccess w1 = mainSuccess w2 ∧
    exitCode w1 = exitCode w2 := by
  have hres : results w1 = results w2 := by
    simp only [suiteRuns, List.map] at h
    obtain ⟨h1, h2, h3, h4, h5⟩ := by simpa using h
    simp [results, suiteRuns, h1, h2, h3, h4, h5]
  refine ⟨by rw [hres], by rw [hres], ?_, ?_⟩
  · simp [mainSuccess, hres]
  · simp [exitCode, mainSuccess, hres]

/-- Witness for C10: two worlds answering with different transport-error
messages (hence different detail mappings) but the same success booleans get
the same exit status. -/
theorem verdict_depends_only_on_booleans_witness :
    (suiteRuns ⟨.error "timeout", .error "timeout", .error "timeout",
                .error "timeout", .error "timeout"⟩).map (fun p => p.2.1) =
      (suiteRuns ⟨.error "refused", .error "refused", .error "refused",
                  .error "refused", .error "refused"⟩).map (fun p => p.2.1) ∧
    exitCode ⟨.error "timeout", .error "timeout", .error "timeout",
              .error "timeout", .error "timeout"⟩ =
      exitCode ⟨.error "refused", .error "refused", .error "refused",
                .error "refused", .error "refused"⟩ :=
  ⟨rfl,
   (verdict_depends_only_on_booleans
     ⟨.error "timeout", .error "timeout", .error "timeout",
      .error "timeout", .error "timeout"⟩
     ⟨.error "refused", .error "refused", .error "refused",
      .error "refused", .error "refused"⟩ rfl).2.2.2⟩

/-- Counterexample to claim C1 as stated: the claim requires the negative
scenario to be `passed = true` when a transport error occurs, but
`test_invalid_payload` reaches its `except` branch on a transport error and
returns `False`. -/
theorem negative_transport_error_fails :
    (test_invalid_payload (.error "Connection refused")).1 = false := rfl

/-- Claim C1 (corrected): the negative scenario is `passed = true` exactly
when an HTTP response is received with `status_code ≠ 200`; on a 200 response
it is `passed = false`, and on a transport error the caught exception also
yields `passed = false` (not `true` as the claim states). -/
theorem negative_pass_iff_non_200_response (t : Transport) :
    (test_invalid_payload t).1 = true ↔
      (∃ r : HttpResponse, t = .response r ∧ r.status_code ≠ 200) := by
  cases t with
  | error e => simp [test_invalid_payload, errDetail]
  | response r =>
    by_cases h200 : r.status_code = 200
    · rcases hb : r.jsonBody with _ | j <;>
        simp [test_invalid_payload, h200, hb, errDetail]
    · simp [test_invalid_payload, h200]

/-- Counterexample to claim C2 as stated: the claim says a non-JSON body is
never by itself a cause of failure, yet a 200 response with a non-JSON body
makes the (positive) simple-webhook scenario fail, because `response.json()`
raises inside the `try` and the `except` branch returns `False`. -/
theorem malformed_body_on_200_fails :
    (test_simple_webhook (.response ⟨200, none, "not json"⟩)).1 = false := rfl

/-- Claim C2 (corrected): for a positive scenario, a response whose body is
not valid JSON never escapes as an exception, but its effect depends on the
status code: on a non-200 status the raw text is surfaced in the failure
detail (the body is never JSON-parsed on that path), while on a 200 status
the `response.json()` exception is caught and the scenario fails with the
decode-error message — so a non-JSON body IS by itself a cause of failure
there.  The negative scenario also fails on a 200 non-JSON body. -/
theorem malformed_body_handling (status : Nat) (text : String) :
    test_simple_webhook (.response ⟨status, none, text⟩) =
      (if status == 200 then (false, errDetail jsonDecodeErrorMsg)
       else (false, failDetail ⟨status, none, text⟩)) ∧
    (test_invalid_payload (.response ⟨200, none, text⟩)).1 = false := by
  constructor
  · by_cases h : status = 200
    · simp [test_simple_webhook, h]
    · simp [test_simple_webhook, h]
  · simp [test_invalid_payload]

/-- Claim C6 (confirmed): a timeout expiry or any transport-level failure is
a raised exception from the single `requests.post` call; its outcome carries
no status code and holds the human-readable message, every scenario catches
it and reports it as its failure detail, and the suite issues exactly one
request per scenario — five in total — so a failed request is never retried
within the run. -/
theorem transport_error_outcome (m : String) (net : Nat → Transport) :
    invokeOutcome (.error m) = (none, some m) ∧
    test_simple_webhook (.error m) = (false, errDetail m) ∧
    test_deploy_ready_webhook (.error m) = (false, errDetail m) ∧
    test_batch_analysis (.error m) = (false, errDetail m) ∧
    test_market_scan_action (.error m) = (false, errDetail m) ∧
    test_invalid_payload (.error m) = (false, errDetail m) ∧
    (runSuiteTrace net).2 = tests.length := by
  refine ⟨rfl, rfl, rfl, rfl, rfl, rfl, ?_⟩
  simp [runSuiteTrace, runTrace, tests]

/-- Counterexample to claim C7 as stated: the claim requires every scenario's
payload to carry a timestamp field, but the invalid-payload scenario's
payload is fully static and has no `timestamp` key. -/
theorem invalid_payload_has_no_timestamp :
    payloadField invalidPayload "timestamp" = none := rfl

/-- Claim C7 (corrected): the simple-webhook, deploy-ready and market-scan
payloads extend their static template with a top-level `timestamp` field
holding the current UTC instant with a trailing `Z`; the batch-analysis
payload carries that timestamp nested inside its `metadata` mapping (not at
top level); the invalid-payload scenario's payload is fully static with no
timestamp anywhere. -/
theorem payload_timestamps (ts : String) :
    payloadField (simpleWebhookPayload ts) "timestamp" = some (.str (ts ++ "Z")) ∧
    payloadField (deployReadyPayload ts) "timestamp" = some (.str (ts ++ "Z")) ∧
    payloadField (marketScanPayload ts) "timestamp" = some (.str (ts ++ "Z")) ∧
    payloadField (batchAnalysisPayload ts) "timestamp" = none ∧
    (payloadField (batchAnalysisPayload ts) "metadata").map
        (fun m => payloadField m "timestamp") =
      some (some (.str (ts ++ "Z"))) ∧
    payloadField invalidPayload "timestamp" = none := by
  refine ⟨?_, ?_, ?_, ?_, ?_, rfl⟩ <;>
    simp [payloadField, simpleWebhookPayload, deployReadyPayload,
          marketScanPayload, batchAnalysisPayload, findKey]

theorem marketScanInspect_ok_iff (data : Json) :
    marketScanInspect data = .ok () ↔ mockScanWellFormed data = true := by
  cases data with
  | null => simp [marketScanInspect, pyContains, mockScanWellFormed]
  | bool b => simp [marketScanInspect, pyContains, mockScanWellFormed]
  | num n => simp [marketScanInspect, pyContains, mockScanWellFormed]
  | str s =>
    cases h : strContains s "mockScan" <;>
      simp [marketScanInspect, pyContains, pyGetItem, mockScanWellFormed, h]
  | arr xs =>
    cases h : xs.any fun e => match e with | .str s => s == "mockScan" | _ => false <;>
      simp [marketScanInspect, pyContains, pyGetItem, mockScanWellFormed, h]
  | obj fs =>
    cases hk : findKey fs "mockScan" with
    | none => simp [marketScanInspect, pyContains, mockScanWellFormed, hk]
    | some v =>
      cases v with
      | null => simp [marketScanInspect, pyContains, pyGetItem, mockScanWellFormed, hk]
      | bool b => simp [marketScanInspect, pyContains, pyGetItem, mockScanWellFormed, hk]
      | num n => simp [marketScanInspect, pyContains, pyGetItem, mockScanWellFormed, hk]
      | str s => simp [marketScanInspect, pyContains, pyGetItem, mockScanWellFormed, hk]
      | arr xs => simp [marketScanInspect, pyContains, pyGetItem, mockScanWellFormed, hk]
      | obj ms =>
        cases h1 : findKey ms "totalScanned" with
        | none =>
          simp [marketScanInspect, pyContains, pyGetItem, mockScanWellFormed, hk, h1]
        | some v1 =>
          cases h2 : findKey ms "filtered" with
          | none =>
            simp [marketScanInspect, pyContains, pyGetItem, mockScanWellFormed,
                  hk, h1, h2]
          | some v2 =>
            cases h3 : findKey ms "queued" with
            | none =>
              simp [marketScanInspect, pyContains, pyGetItem, mockScanWellFormed,
                    hk, h1, h2, h3]
            | some v3 =>
              cases h4 : findKey ms "candidates" with
              | none =>
                simp [marketScanInspect, pyContains, pyGetItem, mockScanWellFormed,
                      hk, h1, h2, h3, h4]
              | some c =>
                cases c <;>
                  simp [marketScanInspect, pyContains, pyGetItem, pyLen,
                        mockScanWellFormed, hasLen, hk, h1, h2, h3, h4]

/-- Counterexample to claim C3 as stated: the claim requires every 200
response to pass regardless of missing `mockScan` subfields, but a 200
response whose `mockScan` object lacks `totalScanned` raises a `KeyError`
inside the `try`, so the scenario is marked failed. -/
theorem malformed_mockScan_fails_on_200 :
    (test_market_scan_action
      (.response ⟨200, some (.obj [("mockScan", .obj [])]), "x"⟩)).1 = false := rfl

/-- Claim C3 (corrected): the `mockScan` object is read only for display and,
when absent, a 200 response always passes; but because the display reads can
raise, `mockScan` DOES affect the verdict when present and malformed: a 200
JSON response passes exactly when the `mockScan` inspection is well-formed —
absent `mockScan`, or a `mockScan` dict carrying `totalScanned`, `filtered`,
`queued` and a `candidates` value supporting `len`. -/
theorem market_scan_200_pass_iff_wellformed (data : Json) (text : String) :
    (test_market_scan_action (.response ⟨200, some data, text⟩)).1 = true ↔
      mockScanWellFormed data = true := by
  have h := marketScanInspect_ok_iff data
  cases hi : marketScanInspect data with
  | ok u =>
    cases u
    simp [test_market_scan_action, hi, h.mp hi]
  | error e =>
    simp [test_market_scan_action, hi]
    cases hw : mockScanWellFormed data with
    | false => rfl
    | true =>
      have hok := h.mpr hw
      rw [hok] at hi
      exact Except.noConfusion hi

end THub
